import Mathlib

/-!
Verification development for the lxc-scripts repository (postgresql.py,
django.py, pydev.py).  The Python sources are shallowly embedded: pure
string manipulation is translated to Lean functions over `String`/`List Char`,
the effectful orchestrator `main` of each recipe is translated to a function
from an oracle environment (which provider calls succeed, what the network
returns) to a run record collecting the event trace, the termination kind,
and the text printed to the two output streams.
-/

/-! ## Python string primitives used by get_stable_codename -/

/-- The apostrophe character (written via its code point). -/
def squote : Char := Char.ofNat 39

/-- Python whitespace characters relevant to bytes.split() on ASCII data. -/
def isPySpace (c : Char) : Bool :=
  c = ' ' || c = '\t' || c = '\n' || c = '\r' || c = Char.ofNat 11 || c = Char.ofNat 12

/-- Helper for `pySplit`: accumulates the current (reversed) token. -/
def pySplitAux : List Char → List Char → List String
  | [], acc => if acc.isEmpty then [] else [String.mk acc.reverse]
  | c :: cs, acc =>
    if isPySpace c then
      if acc.isEmpty then pySplitAux cs [] else String.mk acc.reverse :: pySplitAux cs []
    else pySplitAux cs (c :: acc)

/-- Python `s.split()` with no argument: split on runs of whitespace,
dropping empty tokens. -/
def pySplit (s : String) : List String := pySplitAux s.data []

/-- Removes the longest run of characters from `cs` at the front of a list. -/
def stripLeft (cs : List Char) : List Char → List Char
  | [] => []
  | c :: rest => if cs.contains c then stripLeft cs rest else c :: rest

/-- Python `s.strip(chars)`: remove characters of `cs` from both ends. -/
def pyStrip (cs : List Char) (s : String) : String :=
  String.mk ((stripLeft cs (stripLeft cs s.data).reverse).reverse)

/-- Python `s.rstrip(chars)`: remove characters of `cs` from the right end. -/
def pyRstrip (cs : List Char) (s : String) : String :=
  String.mk ((stripLeft cs s.data.reverse).reverse)

/-- Python `str(b)` applied to a `bytes` value: produces the repr
`b` `squote` content `squote`.  Models tokens whose content is printable
ASCII without quotes or backslashes, which is the case for whitespace-free
tokens of the Debian Release file. -/
def pyByteRepr (s : String) : String :=
  String.mk ('b' :: squote :: (s.data ++ [squote]))

/-! ## The Release Resolver: get_stable_codename (identical in all three files)

```
try:
    url = "http://ftp.debian.org/debian/dists/stable/Release"
    with urllib.request.urlopen(url) as response:
        lines = response.readlines()
        release = str(lines[4].split()[1])
        release = release.strip("b'")
        return release.rstrip("\n'")
except OSError:
    return None
```
The network interaction is the oracle input: either an `OSError`-class
exception (URLError and HTTPError are subclasses of OSError) or a list of
response lines.  Indexing errors (`lines[4]`, `split()[1]`) raise
`IndexError`, which is not an `OSError` and therefore propagates. -/

/-- The class of exceptions caught by the resolver: OSError and its
subclasses, including urllib URLError/HTTPError. -/
inductive OSErr
  | osError
deriving DecidableEq

/-- An exception that escapes the resolver uncaught. -/
inductive PyExc
  | indexError
deriving DecidableEq

/-- Character set of `strip("b'")`. -/
def bQuoteChars : List Char := ['b', squote]

/-- Character set of `rstrip("\n'")`. -/
def nlQuoteChars : List Char := ['\n', squote]

/-- The resolver `get_stable_codename`, from postgresql.py lines 16-30 (django.py 97-109
and pydev.py 35-47 are identical up to returning `None` via `pass`). -/
def get_stable_codename (net : Except OSErr (List String)) :
    Except PyExc (Option String) :=
  match net with
  | .error _ => .ok none
  | .ok lines =>
    if h5 : 4 < lines.length then
      if h1 : 1 < (pySplit (lines.get ⟨4, h5⟩)).length then
        .ok (some (pyRstrip nlQuoteChars
          (pyStrip bQuoteChars
            (pyByteRepr ((pySplit (lines.get ⟨4, h5⟩)).get ⟨1, h1⟩)))))
      else .error .indexError
    else .error .indexError

/-! ## The Password Generator: generate_password (identical in all three files)

```
def generate_password(length=8, characters=string.ascii_uppercase+string.ascii_lowercase+string.digits):
    return ''.join(random.SystemRandom().choice(characters) for _ in range(length))
```
The random source is the oracle `choice`, one index per draw. -/

/-- Python `string.ascii_uppercase + string.ascii_lowercase + string.digits`. -/
def password_characters : List Char :=
  ("ABCDEFGHIJKLMNOPQRSTUVWXYZ" ++ "abcdefghijklmnopqrstuvwxyz" ++ "0123456789").data

/-- The generator `generate_password`: one character per draw from the fixed alphabet. -/
def generate_password (length : Nat)
    (choice : Nat → Fin password_characters.length) : String :=
  String.mk ((List.range length).map (fun i => password_characters.get (choice i)))

/-! ## Container name computation

Each recipe computes
`debian_release = get_stable_codename(); if not debian_release: debian_release = "jessie"`.
Python truthiness makes both `None` and the empty string fall back. -/

/-- Python `if not debian_release: debian_release = "jessie"` — falls back on
`None` and on the empty string (Python falsiness). -/
def fallbackRelease (r : Option String) : String :=
  match r with
  | none => "jessie"
  | some s => if s = "" then "jessie" else s

/-- postgresql.py line 88: `"{}_postgresql_{}".format(prefix, debian_release)`. -/
def pgContainerName (pre : String) (r : Option String) : String :=
  pre ++ "_postgresql_" ++ fallbackRelease r

/-- django.py line 160: `"{}_django_{}".format(prefix, debian_release)`. -/
def djContainerName (pre : String) (r : Option String) : String :=
  pre ++ "_django_" ++ fallbackRelease r

/-- pydev.py line 118: `"{}_pydev_{}".format(prefix, debian_release)`. -/
def pydevContainerName (pre : String) (r : Option String) : String :=
  pre ++ "_pydev_" ++ fallbackRelease r

/-! ## The host-side Popen call of the piped Step Runner variant -/

/-- Destination of a standard stream of a spawned host process:
inherited from the parent, redirected to the null sink, or a pipe. -/
inductive StdStream
  | inherit
  | devnull
  | pipe
deriving DecidableEq

/-- The relevant arguments of a `subprocess.Popen` call. -/
structure PopenCall where
  args : List String
  stdout : StdStream
  stderr : StdStream
deriving DecidableEq

/-- django.py lines 130-133: `subprocess.Popen(first_cmd, stdout=subprocess.PIPE)`
— no stderr argument is passed, so the host process stderr is inherited
whatever the debug flag says. -/
def django_pipe_popen (first_cmd : List String) (debug : Bool) : PopenCall :=
  { args := first_cmd, stdout := .pipe, stderr := .inherit }

/-- pydev.py lines 68-73: stderr is `subprocess.DEVNULL` unless debug is set,
in which case it stays `None` (inherited). -/
def pydev_pipe_popen (first_cmd : List String) (debug : Bool) : PopenCall :=
  { args := first_cmd, stdout := .pipe,
    stderr := if debug then .inherit else .devnull }

/-! ## The Provisioning Orchestrator runs

Each recipe's `main` is embedded as a function from an oracle `Env`
(results of provider calls and of the network) to a `RunEnd` describing the
run: the ordered trace of provider/lifecycle events produced by the body of
`main`, whether the atexit rollback (`cleanup_container`, stop then destroy)
was still registered when the process terminated, whether the JSON
ProvisioningResult was printed, the termination kind, and the lines printed
to stderr and stdout.  Python runs atexit handlers on normal return, on
`sys.exit`, and after an uncaught exception, so a registered rollback fires
in every termination kind.  The `open(os.devnull)`/close atexit pair of
postgresql.py and the textual content of the JSON record and of the
in-container command argument vectors are not modelled: no claim depends on
them. -/

/-- How the interpreter terminated: normal return from `main` (exit code 0),
`sys.exit(code)` from `error_exit`, or an uncaught exception (the
interpreter prints a traceback and exits with code 1). -/
inductive Term
  | normal
  | sysExit (code : Nat)
  | uncaught
deriving DecidableEq

/-- Provider and lifecycle events of a run, in program order. -/
inductive Ev
  | create
  | registerRollback
  | clearConfig (key : String)
  | appendConfig (key : String) (val : String)
  | saveConfig
  | start
  | getIps (timeoutSecs : Nat)
  | attachRun (idx : Nat)
  | writeHostFile
  | chmodHostFile
  | stopC
  | destroyC
  | emitResult
  | cancelRollback
deriving DecidableEq

/-- Result of one run of a recipe's `main`. -/
structure RunEnd where
  bodyTrace : List Ev
  registered : Bool
  emitted : Bool
  term : Term
  stderrLines : List String
  stdoutLines : List String
deriving DecidableEq

/-- Process exit code: 0 on normal return, the `sys.exit` argument, and 1
after an uncaught exception. -/
def exitCode (r : RunEnd) : Nat :=
  match r.term with
  | .normal => 0
  | .sysExit c => c
  | .uncaught => 1

/-- The rollback fires at process exit exactly when it is still registered. -/
def rollbackFired (r : RunEnd) : Bool := r.registered

/-- The event trace including the atexit phase: a still-registered
`cleanup_container` appends stop then destroy. -/
def exitTrace (r : RunEnd) : List Ev :=
  r.bodyTrace ++ (if r.registered then [Ev.stopC, Ev.destroyC] else [])

/-- Oracle environment: outcome of each external call a run can make.
`attach i` is the exit status returned by the i-th step's `attach_wait`,
`runningAt i` is the `container.defined and container.running` recheck the
django/pydev step runner performs before step i, `ips` is the
`get_ips(timeout=120)` result. -/
structure Env where
  netResponse : Except OSErr (List String)
  defined : Bool
  createOk : Bool
  appendMountOk : Bool
  clearIdMapOk : Bool
  appendIdMapOk : Nat → Bool
  saveOk : Bool
  startOk : Bool
  ips : List String
  runningAt : Nat → Bool
  attach : Nat → Int
  writeOk : Bool
  chmodOk : Bool
  stopOk : Bool
  choice : Nat → Fin password_characters.length

/-- postgresql.py logger: `print(text)` when verbose (texts carry their own
dots), nothing otherwise. -/
def pgLog (v : Bool) (out : List String) (text : String) : List String :=
  out ++ (if v then [text] else [])

/-- postgresql.py `error_exit`: print the raw text to stderr, `sys.exit(1)`. -/
def pgFail (tr : List Ev) (reg : Bool) (out : List String) (msg : String) :
    RunEnd :=
  { bodyTrace := tr, registered := reg, emitted := false,
    term := .sysExit 1, stderrLines := [msg], stdoutLines := out }

/-- django.py / pydev.py error formatting: `"Error: {}!".format(text)`. -/
def errFmt (text : String) : String := "Error: " ++ text ++ "!"

/-- django.py / pydev.py `error_exit` and step-runner failure: print the
wrapped text to stderr, `sys.exit(1)`. -/
def fmtFail (tr : List Ev) (reg : Bool) (out : List String) (text : String) :
    RunEnd :=
  { bodyTrace := tr, registered := reg, emitted := false,
    term := .sysExit 1, stderrLines := [errFmt text], stdoutLines := out }

/-- django.py / pydev.py logger: prints `text + "..."` when verbose and
returns the text (the description) either way. -/
def vLog (v : Bool) (out : List String) (text : String) : List String :=
  out ++ (if v then [text ++ "..."] else [])

/-! ### postgresql.py main (lines 71-160) -/

/-- The seven attach steps of postgresql.py (lines 118-146) in order: the
logger lines printed before each `attach_wait` call (the single
"Configuring PostgreSQL..." line covers both configuration steps), and the
message passed to `error_exit` on a non-zero status. -/
def pgSteps : List (List String × String) :=
  [(["Updating apt..."], "Error updating apt!"),
   (["Installing packages..."], "Error installing packages!"),
   (["Configuring PostgreSQL..."], "Error configuring pg_hba.conf!"),
   ([], "Error configuring postgresql.conf!"),
   (["Restarting PostgreSQL daemon..."], "Error restarting PostgresSQL daemon!"),
   (["Creating database user..."], "Error creating database user!"),
   (["Creating database..."], "Error creating database!")]

/-- Runs postgresql.py's attach steps in order: each failing status aborts
via `error_exit` with the step's message (rollback stays registered); on
success returns the accumulated trace and stdout. -/
def pgRunSteps (env : Env) (v : Bool) :
    List (List String × String) → Nat → List Ev → List String →
    Sum RunEnd (List Ev × List String)
  | [], _, tr, out => .inr (tr, out)
  | (logs, msg) :: rest, i, tr, out =>
    let out := out ++ (if v then logs else [])
    let tr := tr ++ [Ev.attachRun i]
    if env.attach i ≠ 0 then .inl (pgFail tr true out msg)
    else pgRunSteps env v rest (i + 1) tr out

/-- End of postgresql.py `main`: a failed step is returned as-is; on total
success the logger prints "Success!", the JSON result is printed (line 157)
and only then is the rollback unregistered (line 160). -/
def pgFinish (v : Bool) (res : Sum RunEnd (List Ev × List String)) : RunEnd :=
  match res with
  | .inl e => e
  | .inr (tr2, out2) =>
      { bodyTrace := tr2 ++ [Ev.emitResult, Ev.cancelRollback],
        registered := false, emitted := true, term := .normal,
        stderrLines := [], stdoutLines := pgLog v out2 "Success!" }

/-- The part of postgresql.py `main` from line 99 on: everything after the
container filesystem was successfully created.  `tr0`/`out0` are the trace
and stdout accumulated so far.  First action: `atexit.register(cleanup_container)`. -/
def pgAfterCreate (v : Bool) (env : Env) (tr0 : List Ev) (out0 : List String) :
    RunEnd :=
  let tr := tr0 ++ [Ev.registerRollback]
  let out := pgLog v out0 "Starting container..."
  let tr := tr ++ [Ev.start]
  if !env.startOk then pgFail tr true out "Failed to start the container!"
  else
  let out := pgLog v out "Getting IP address..."
  let tr := tr ++ [Ev.getIps 120]
  -- `container.get_ips(timeout=120)[0]` : uncaught IndexError on an empty result
  match env.ips with
  | [] =>
      { bodyTrace := tr, registered := true, emitted := false,
        term := .uncaught, stderrLines := [], stdoutLines := out }
  | addr :: _ =>
    if addr = "" then pgFail tr true out "Failed to connect to the container"
    else pgFinish v (pgRunSteps env v pgSteps 0 tr out)

/-- postgresql.py `main(prefix, verbose)`.  An exception escaping
`get_stable_codename` (malformed response) aborts `main` before any
provider interaction. -/
def pgMain (pre : String) (v : Bool) (env : Env) : RunEnd :=
  let _db_user := pre ++ "_user"
  let _db_name := pre ++ "_db"
  let _db_password := generate_password 8 env.choice
  match get_stable_codename env.netResponse with
  | .error _ =>
      { bodyTrace := [], registered := false, emitted := false,
        term := .uncaught, stderrLines := [], stdoutLines := [] }
  | .ok r =>
    let container_name := pgContainerName pre r
    if env.defined then
      pgFail [] false [] ("Container " ++ container_name ++ " already exists!")
    else
    let out := pgLog v [] "Creating filesystem..."
    let tr := [Ev.create]
    if !env.createOk then
      pgFail tr false out "Failed to create the container filesystem!"
    else pgAfterCreate v env tr out

/-! ### django.py main (lines 135-257) and pydev.py main (lines 90-219) -/

/-- Mode of one step of the fixed sequence: directly attached command, or a
host-side command piped into an attached command. -/
inductive StepMode
  | direct
  | piped
deriving DecidableEq

/-- The six `lxc.id_map` values appended by django.py lines 180-185 and
pydev.py lines 144-149. -/
def idMapEntries : List String :=
  ["u 0 100000 1000", "g 0 100000 1000", "u 1000 1000 1",
   "g 1000 1000 1", "u 1001 101001 64535", "g 1001 101001 64535"]

/-- The short-circuiting `and` chain of six `append_config_item` calls:
returns the events of the calls actually made and whether all succeeded. -/
def appendIdMaps (env : Env) : Nat → List String → (List Ev × Bool)
  | _, [] => ([], true)
  | i, val :: rest =>
    if env.appendIdMapOk i then
      let next := appendIdMaps env (i + 1) rest
      (Ev.appendConfig "lxc.id_map" val :: next.1, next.2)
    else ([Ev.appendConfig "lxc.id_map" val], false)

/-- The fixed step sequence driven through `container_run_command` /
`container_pipe_command` (django.py lines 205-243, pydev.py lines 169-193).
The runner rechecks `container.defined and container.running` before each
step, prints the description when verbose, and on a non-zero attach status
prints `"Error: {description}!"` and exits 1.  Command argument vectors are
not modelled (no claim depends on their content).  On success returns the
accumulated trace and stdout. -/
def runSteps (env : Env) (v : Bool) :
    List (StepMode × String) → Nat → List Ev → List String →
    Sum RunEnd (List Ev × List String)
  | [], _, tr, out => .inr (tr, out)
  | (_, descr) :: rest, i, tr, out =>
    if env.runningAt i then
      let out := out ++ (if v then [descr ++ "..."] else [])
      let tr := tr ++ [Ev.attachRun i]
      if env.attach i ≠ 0 then
        .inl (fmtFail tr true out descr)
      else runSteps env v rest (i + 1) tr out
    else
      .inl (fmtFail tr true out "Container does not exist or is not running")

/-- The twenty steps of django.py (lines 205-243), in textual order. -/
def djSteps : List (StepMode × String) :=
  [(.direct, "Updating apt"),
   (.direct, "Installing debian packages"),
   (.direct, "Installing python packages"),
   (.direct, "Adding user"),
   (.piped,  "Setting user password"),
   (.direct, "Creating Django project"),
   (.direct, "Appending configuration to settings.py"),
   (.direct, "Updating static files configuration"),
   (.direct, "Creating media directory"),
   (.direct, "Creating nginx configuration file"),
   (.direct, "Copying nginx uwsgi parameter file"),
   (.direct, "Removing default site"),
   (.direct, "Setting site status to active"),
   (.direct, "Restarting nginx"),
   (.direct, "Creating uwsgi configuration file"),
   (.direct, "Creating uwsgi configuration directory"),
   (.direct, "Linking uwsgi configuration"),
   (.direct, "Creating uwsgi service"),
   (.direct, "Activating uwsgi service"),
   (.direct, "Starting uwsgi service")]

/-- The twelve steps of pydev.py (lines 169-193), in textual order. -/
def pydevSteps : List (StepMode × String) :=
  [(.direct, "Unmouting X11 directory"),
   (.direct, "Updating apt"),
   (.direct, "Installing debian packages"),
   (.direct, "Installing GUI packages"),
   (.direct, "Installing python packages"),
   (.direct, "Adding user"),
   (.piped,  "Setting user password"),
   (.direct, "Appending container name to /etc/hosts"),
   (.piped,  "Downloading and extracting Java JDK"),
   (.piped,  "Downloading and extracting Eclipse IDE"),
   (.direct, "Updating Eclipse configuration"),
   (.direct, "Installing PyDev")]

/-- End of django.py `main`: a failed step is returned as-is; on total
success the logger prints "Success!", the JSON result is printed (line 254)
and only then is the rollback unregistered (line 257). -/
def djFinish (v : Bool) (res : Sum RunEnd (List Ev × List String)) : RunEnd :=
  match res with
  | .inl e => e
  | .inr (tr2, out2) =>
      { bodyTrace := tr2 ++ [Ev.emitResult, Ev.cancelRollback],
        registered := false, emitted := true, term := .normal,
        stderrLines := [], stdoutLines := vLog v out2 "Success!" }

/-- The part of pydev.py `main` after the last attach step (lines 195-219):
write the startup script on the host, make it executable, stop the
container; then print the JSON result (line 216) and only then unregister
the rollback (line 219). -/
def pydevTail (v : Bool) (env : Env) (tr2 : List Ev) (out2 : List String) :
    RunEnd :=
  let out := vLog v out2 "Writing startup script"
  let tr := tr2 ++ [Ev.writeHostFile]
  if !env.writeOk then fmtFail tr true out "Writing startup script"
  else
  let out := vLog v out "Making script executable"
  let tr := tr ++ [Ev.chmodHostFile]
  if !env.chmodOk then fmtFail tr true out "Making script executable"
  else
  let out := vLog v out "Stopping container"
  let tr := tr ++ [Ev.stopC]
  if !env.stopOk then fmtFail tr true out "Stopping container"
  else
  let out := vLog v out "Success!"
  { bodyTrace := tr ++ [Ev.emitResult, Ev.cancelRollback],
    registered := false, emitted := true, term := .normal,
    stderrLines := [], stdoutLines := out }

/-- End of pydev.py `main`: a failed step is returned as-is; on success the
host-side tail runs. -/
def pydevFinish (v : Bool) (env : Env)
    (res : Sum RunEnd (List Ev × List String)) : RunEnd :=
  match res with
  | .inl e => e
  | .inr (tr2, out2) => pydevTail v env tr2 out2

/-- django.py `main(prefix, verbose)`.  Line 137
(`prefix[0].upper() + prefix[1:].lower() + " User"`) raises an uncaught
IndexError on the empty prefix, before any provider interaction. -/
def djMain (pre : String) (v : Bool) (env : Env) : RunEnd :=
  let user_name := pre ++ "_user"
  match pre.data with
  | [] =>
      { bodyTrace := [], registered := false, emitted := false,
        term := .uncaught, stderrLines := [], stdoutLines := [] }
  | c :: rest =>
    let _user_info := String.mk (Char.toUpper c :: rest.map Char.toLower) ++ " User"
    let _user_password := generate_password 8 env.choice
    let _user_home := "/home/" ++ user_name
    match get_stable_codename env.netResponse with
    | .error _ =>
        { bodyTrace := [], registered := false, emitted := false,
          term := .uncaught, stderrLines := [], stdoutLines := [] }
    | .ok r =>
      let container_name := djContainerName pre r
      if env.defined then
        fmtFail [] false [] ("Container " ++ container_name ++ " already exists!")
      else
      let out := vLog v [] "Creating filesystem"
      let tr := [Ev.create]
      if !env.createOk then fmtFail tr false out "Creating filesystem"
      else
      let tr := tr ++ [Ev.registerRollback]
      let out := vLog v out "Clearing UID and GID mappings"
      let tr := tr ++ [Ev.clearConfig "lxc.id_map"]
      if !env.clearIdMapOk then fmtFail tr true out "Clearing UID and GID mappings"
      else
      let out := vLog v out "Appending new UID and GID mappings"
      let ap := appendIdMaps env 0 idMapEntries
      let tr := tr ++ ap.1
      if !ap.2 then fmtFail tr true out "Appending new UID and GID mappings"
      else
      let out := vLog v out "Saving configuration"
      let tr := tr ++ [Ev.saveConfig]
      if !env.saveOk then fmtFail tr true out "Saving configuration"
      else
      let out := vLog v out "Starting container"
      let tr := tr ++ [Ev.start]
      if !env.startOk then fmtFail tr true out "Starting container"
      else
      let out := vLog v out "Getting IP address"
      let tr := tr ++ [Ev.getIps 120]
      match env.ips with
      | [] =>
          { bodyTrace := tr, registered := true, emitted := false,
            term := .uncaught, stderrLines := [], stdoutLines := out }
      | addr :: _ =>
        if addr = "" then fmtFail tr true out "Getting IP address"
        else djFinish v (runSteps env v djSteps 0 tr out)

/-- pydev.py `main(prefix, verbose)`.  Same prelude IndexError on the empty
prefix (line 92); extra phases: a bind-mount config append before the id
mappings, and a startup-script write, chmod and container stop after the
step sequence. -/
def pydevMain (pre : String) (v : Bool) (env : Env) : RunEnd :=
  let user_name := pre ++ "_user"
  match pre.data with
  | [] =>
      { bodyTrace := [], registered := false, emitted := false,
        term := .uncaught, stderrLines := [], stdoutLines := [] }
  | c :: rest =>
    let _user_info := String.mk (Char.toUpper c :: rest.map Char.toLower) ++ " User"
    let _user_password := generate_password 8 env.choice
    let _user_home := "/home/" ++ user_name
    match get_stable_codename env.netResponse with
    | .error _ =>
        { bodyTrace := [], registered := false, emitted := false,
          term := .uncaught, stderrLines := [], stdoutLines := [] }
    | .ok r =>
      let container_name := pydevContainerName pre r
      if env.defined then
        fmtFail [] false [] ("Container " ++ container_name ++ " already exists!")
      else
      let out := vLog v [] "Creating filesystem"
      let tr := [Ev.create]
      if !env.createOk then fmtFail tr false out "Creating filesystem"
      else
      let tr := tr ++ [Ev.registerRollback]
      let out := vLog v out "Appending mount entry to config"
      let tr := tr ++ [Ev.appendConfig "lxc.mount.entry"
        "/tmp/.X11-unix tmp/.X11-unix none bind,optional,create=dir"]
      if !env.appendMountOk then fmtFail tr true out "Appending mount entry to config"
      else
      let out := vLog v out "Clearing UID and GID mappings"
      let tr := tr ++ [Ev.clearConfig "lxc.id_map"]
      if !env.clearIdMapOk then fmtFail tr true out "Clearing UID and GID mappings"
      else
      let out := vLog v out "Appending new UID and GID mappings"
      let ap := appendIdMaps env 0 idMapEntries
      let tr := tr ++ ap.1
      if !ap.2 then fmtFail tr true out "Appending new UID and GID mappings"
      else
      let out := vLog v out "Saving configuration"
      let tr := tr ++ [Ev.saveConfig]
      if !env.saveOk then fmtFail tr true out "Saving configuration"
      else
      let out := vLog v out "Starting container"
      let tr := tr ++ [Ev.start]
      if !env.startOk then fmtFail tr true out "Starting container"
      else
      let out := vLog v out "Getting IP address"
      let tr := tr ++ [Ev.getIps 120]
      match env.ips with
      | [] =>
          { bodyTrace := tr, registered := true, emitted := false,
            term := .uncaught, stderrLines := [], stdoutLines := out }
      | addr :: _ =>
        if addr = "" then fmtFail tr true out "Getting IP address"
        else pydevFinish v env (runSteps env v pydevSteps 0 tr out)

/-! ## Trace-order helpers and concrete environments -/

/-- Whether an event occurs in a list. -/
def containsEv (x : Ev) : List Ev → Bool
  | [] => false
  | y :: ys => if y = x then true else containsEv x ys

/-- Whether some occurrence of `a` is strictly followed by an occurrence of
`b`. -/
def occursBefore (a b : Ev) : List Ev → Bool
  | [] => false
  | x :: xs => (if x = a then containsEv b xs else false) || occursBefore a b xs

/-- The exact shape `"Error: <description>!"` required of a fatal line,
expressed over the character data of the string. -/
def hasErrorLineForm (s : String) : Prop :=
  ∃ d : String, s.data = ("Error: ").data ++ d.data ++ ("!").data

/-- An environment in which every external interaction succeeds
(the resolver gets a network failure and falls back to the default). -/
def envAllOk : Env :=
  { netResponse := .error .osError,
    defined := false, createOk := true, appendMountOk := true,
    clearIdMapOk := true, appendIdMapOk := fun _ => true, saveOk := true,
    startOk := true, ips := ["10.0.3.5"], runningAt := fun _ => true,
    attach := fun _ => 0, writeOk := true, chmodOk := true, stopOk := true,
    choice := fun _ => ⟨0, by decide⟩ }

/-- Environment in which a container with the computed name already exists. -/
def envDefined : Env := { envAllOk with defined := true }

/-- Environment in which `get_ips(timeout=120)` returns an empty result. -/
def envNoIps : Env := { envAllOk with ips := [] }

/-! ## Claims about the Release Resolver -/

/-- Equality of embedded Python results is decidable. -/
instance {ε α : Type} [DecidableEq ε] [DecidableEq α] : DecidableEq (Except ε α) :=
  fun a b =>
    match a, b with
    | .error x, .error y =>
        decidable_of_iff (x = y) ⟨fun h => by rw [h], fun h => by cases h; rfl⟩
    | .ok x, .ok y =>
        decidable_of_iff (x = y) ⟨fun h => by rw [h], fun h => by cases h; rfl⟩
    | .error _, .ok _ => isFalse (fun h => by cases h)
    | .ok _, .error _ => isFalse (fun h => by cases h)

/-- Claim C2, counterexample: on a malformed response with fewer than five
lines the resolver does not return absent — the `lines[4]` IndexError
propagates uncaught, refuting "returns None on every failure". -/
theorem C2_counterexample :
    get_stable_codename (Except.ok []) = Except.error PyExc.indexError ∧
    get_stable_codename (Except.ok []) ≠ Except.ok none := by decide

/-- Claim C2, amended: the resolver returns absent (None) on every
OSError-class failure (network errors, HTTP error conditions) without
propagating, but a malformed response — fewer than five lines, or a fifth
line with fewer than two whitespace-separated tokens — raises an uncaught
IndexError that propagates out of the function. -/
theorem C2_amended :
    (∀ e, get_stable_codename (Except.error e) = Except.ok none) ∧
    (∀ lines : List String, lines.length < 5 →
      get_stable_codename (Except.ok lines) = Except.error PyExc.indexError) ∧
    (∀ (lines : List String) (h5 : 4 < lines.length),
      (pySplit (lines.get ⟨4, h5⟩)).length < 2 →
      get_stable_codename (Except.ok lines) = Except.error PyExc.indexError) := by
  refine ⟨fun e => rfl, fun lines h => ?_, fun lines h5 h1 => ?_⟩
  · simp only [get_stable_codename]
    rw [dif_neg (by omega)]
  · simp only [get_stable_codename]
    rw [dif_pos h5, dif_neg (by omega)]

/-- Claim C2, witness for the amended theorem at concrete inputs. -/
theorem C2_witness :
    get_stable_codename (Except.error OSErr.osError) = Except.ok none ∧
    get_stable_codename (Except.ok ["only line\n"]) = Except.error PyExc.indexError ∧
    get_stable_codename (Except.ok ["a\n", "b\n", "c\n", "d\n", "Codename:\n"]) =
      Except.error PyExc.indexError :=
  ⟨C2_amended.1 OSErr.osError,
   C2_amended.2.1 ["only line\n"] (by decide),
   C2_amended.2.2 ["a\n", "b\n", "c\n", "d\n", "Codename:\n"] (by decide) (by decide)⟩

/-- Claim C4: the code is wrong on codenames that begin or end with the
letter b.  `strip("b'")` removes all leading and trailing characters from
the set (b, apostrophe), not just the bytes-repr wrapper: for the real
Debian stable response line `Codename: bookworm` the function returns
"ookworm", not the codename its own docstring promises. -/
theorem C4_codebug :
    get_stable_codename (Except.ok ["Origin: Debian\n", "Label: Debian\n",
      "Suite: stable\n", "Version: 12.7\n", "Codename: bookworm\n"]) =
      Except.ok (some "ookworm") ∧
    get_stable_codename (Except.ok ["Origin: Debian\n", "Label: Debian\n",
      "Suite: stable\n", "Version: 12.7\n", "Codename: bookworm\n"]) ≠
      Except.ok (some "bookworm") := by decide

/-! ## Claim about the Password Generator -/

/-- Claim C6: for every length N ≥ 1 and every draw oracle, the generated
password has length exactly N and every character belongs to the
alphanumeric alphabet. -/
theorem C6_generate_password (N : Nat)
    (choice : Nat → Fin password_characters.length) (h : 1 ≤ N) :
    (generate_password N choice).length = N ∧
    ∀ c ∈ (generate_password N choice).data, c ∈ password_characters := by
  constructor
  · show ((List.range N).map (fun i => password_characters.get (choice i))).length = N
    rw [List.length_map, List.length_range]
  · intro c hc
    have hc2 : c ∈ (List.range N).map
        (fun i => password_characters.get (choice i)) := hc
    obtain ⟨i, _, rfl⟩ := List.mem_map.mp hc2
    exact List.get_mem _ _ _

/-- Claim C6, witness at N = 3 with a constant draw oracle. -/
theorem C6_witness :
    (generate_password 3 (fun _ => ⟨0, by decide⟩)).length = 3 ∧
    ∀ c ∈ (generate_password 3 (fun _ => ⟨0, by decide⟩)).data,
      c ∈ password_characters :=
  C6_generate_password 3 (fun _ => ⟨0, by decide⟩) (by decide)

/-! ## Claims about the container name -/

/-- Claim C8, counterexample: a present but empty resolver result is
replaced by "jessie" (Python falsiness), so the name is not
prefix ++ role ++ resolver-result as claimed. -/
theorem C8_counterexample :
    pgContainerName "acme" (some "") = "acme_postgresql_jessie" ∧
    pgContainerName "acme" (some "") ≠ "acme" ++ "_postgresql_" ++ "" := by decide

/-- Claim C8, amended: the sandbox name is prefix ++ role tag ++ release,
where release is the resolver result when it is present and non-empty, and
the hardcoded default "jessie" when the resolver returns absent or the
empty string; in particular acme/bookworm gives acme_postgresql_bookworm. -/
theorem C8_amended :
    (∀ pre s, s ≠ "" →
      pgContainerName pre (some s) = pre ++ "_postgresql_" ++ s ∧
      djContainerName pre (some s) = pre ++ "_django_" ++ s ∧
      pydevContainerName pre (some s) = pre ++ "_pydev_" ++ s) ∧
    (∀ pre,
      pgContainerName pre none = pre ++ "_postgresql_" ++ "jessie" ∧
      pgContainerName pre (some "") = pre ++ "_postgresql_" ++ "jessie" ∧
      djContainerName pre none = pre ++ "_django_" ++ "jessie" ∧
      djContainerName pre (some "") = pre ++ "_django_" ++ "jessie" ∧
      pydevContainerName pre none = pre ++ "_pydev_" ++ "jessie" ∧
      pydevContainerName pre (some "") = pre ++ "_pydev_" ++ "jessie") ∧
    pgContainerName "acme" (some "bookworm") = "acme_postgresql_bookworm" := by
  refine ⟨fun pre s hs => ?_, fun pre => ?_, by decide⟩
  · simp [pgContainerName, djContainerName, pydevContainerName, fallbackRelease, hs]
  · simp [pgContainerName, djContainerName, pydevContainerName, fallbackRelease]

/-- Claim C8, witness for the amended theorem at acme/bookworm. -/
theorem C8_witness :
    pgContainerName "acme" (some "bookworm") = "acme" ++ "_postgresql_" ++ "bookworm" ∧
    djContainerName "acme" (some "bookworm") = "acme" ++ "_django_" ++ "bookworm" ∧
    pydevContainerName "acme" (some "bookworm") = "acme" ++ "_pydev_" ++ "bookworm" :=
  C8_amended.1 "acme" "bookworm" (by decide)

/-! ## Claim about the piped Step Runner variant -/

/-- Claim C9, counterexample: django.py's piped variant passes no stderr
argument to Popen, so with debug off the host-side stderr is inherited, not
sent to the null sink as claimed. -/
theorem C9_counterexample :
    (django_pipe_popen ["echo", "acme_user:pw"] false).stderr ≠ StdStream.devnull ∧
    (django_pipe_popen ["echo", "acme_user:pw"] false).stderr = StdStream.inherit := by
  decide

/-- Claim C9, amended: in pydev.py's piped variant the host-side stderr is
suppressed exactly when debug mode is not set and inherited when it is; in
django.py's piped variant the host-side stderr is always inherited,
whatever the debug flag. -/
theorem C9_amended :
    (∀ cmd d, (pydev_pipe_popen cmd d).stderr =
      if d then StdStream.inherit else StdStream.devnull) ∧
    (∀ cmd d, (django_pipe_popen cmd d).stderr = StdStream.inherit) :=
  ⟨fun _ _ => rfl, fun _ _ => rfl⟩

/-! ## Claim about the already-exists precondition -/

/-- Claim C7: in every run in which a sandbox with the computed name
already exists, each recipe terminates with exit code 1 with the rollback
never registered and with an empty provider event trace — no create,
start, config change, save, attach, stop or destroy call is made. -/
theorem C7_exists_precondition (pre : String) (v : Bool) (env : Env)
    (hd : env.defined = true) :
    (exitCode (pgMain pre v env) = 1 ∧ rollbackFired (pgMain pre v env) = false ∧
      (pgMain pre v env).bodyTrace = []) ∧
    (exitCode (djMain pre v env) = 1 ∧ rollbackFired (djMain pre v env) = false ∧
      (djMain pre v env).bodyTrace = []) ∧
    (exitCode (pydevMain pre v env) = 1 ∧ rollbackFired (pydevMain pre v env) = false ∧
      (pydevMain pre v env).bodyTrace = []) := by
  refine ⟨?_, ?_, ?_⟩
  · rcases hr : get_stable_codename env.netResponse with e | r <;>
      simp [pgMain, hr, hd, pgFail, exitCode, rollbackFired]
  · rcases hp : pre.data with _ | ⟨c, cs⟩ <;>
      rcases hr : get_stable_codename env.netResponse with e | r <;>
      simp [djMain, hp, hr, hd, fmtFail, exitCode, rollbackFired]
  · rcases hp : pre.data with _ | ⟨c, cs⟩ <;>
      rcases hr : get_stable_codename env.netResponse with e | r <;>
      simp [pydevMain, hp, hr, hd, fmtFail, exitCode, rollbackFired]

/-- Claim C7, witness at a concrete already-existing environment. -/
theorem C7_witness :
    (exitCode (pgMain "test" false envDefined) = 1 ∧
      rollbackFired (pgMain "test" false envDefined) = false ∧
      (pgMain "test" false envDefined).bodyTrace = []) ∧
    (exitCode (djMain "test" false envDefined) = 1 ∧
      rollbackFired (djMain "test" false envDefined) = false ∧
      (djMain "test" false envDefined).bodyTrace = []) ∧
    (exitCode (pydevMain "test" false envDefined) = 1 ∧
      rollbackFired (pydevMain "test" false envDefined) = false ∧
      (pydevMain "test" false envDefined).bodyTrace = []) :=
  C7_exists_precondition "test" false envDefined rfl

/-! ## Structural lemmas about the step folds -/

/-- A failing postgresql attach step always ends in the `error_exit` shape:
exit path `sys.exit(1)`, rollback still registered, no result, exactly one
stderr line. -/
lemma pgRunSteps_inl (env : Env) (v : Bool) :
    ∀ (steps : List (List String × String)) (i : Nat) (tr : List Ev)
      (out : List String) (e : RunEnd),
      pgRunSteps env v steps i tr out = Sum.inl e →
      e.term = Term.sysExit 1 ∧ e.registered = true ∧ e.emitted = false ∧
      e.stderrLines.length = 1 := by
  intro steps
  induction steps with
  | nil => intro i tr out e h; simp [pgRunSteps] at h
  | cons s rest ih =>
    intro i tr out e h
    obtain ⟨logs, msg⟩ := s
    simp only [pgRunSteps] at h
    by_cases hat : env.attach i ≠ 0
    · rw [if_pos hat] at h
      injection h with h
      subst h
      exact ⟨rfl, rfl, rfl, rfl⟩
    · rw [if_neg hat] at h
      exact ih _ _ _ _ h

/-- With verbosity off, a failing postgresql attach step adds nothing to
stdout. -/
lemma pgRunSteps_inl_out (env : Env) :
    ∀ (steps : List (List String × String)) (i : Nat) (tr : List Ev)
      (out : List String) (e : RunEnd),
      pgRunSteps env false steps i tr out = Sum.inl e →
      e.stdoutLines = out := by
  intro steps
  induction steps with
  | nil => intro i tr out e h; simp [pgRunSteps] at h
  | cons s rest ih =>
    intro i tr out e h
    obtain ⟨logs, msg⟩ := s
    simp only [pgRunSteps, if_neg, List.append_nil, Bool.false_eq_true,
      ite_false] at h
    by_cases hat : env.attach i ≠ 0
    · rw [if_pos hat] at h
      injection h with h
      subst h
      rfl
    · rw [if_neg hat] at h
      exact ih _ _ _ _ h

/-- With verbosity off, a fully successful postgresql step sequence adds
nothing to stdout. -/
lemma pgRunSteps_inr_out (env : Env) :
    ∀ (steps : List (List String × String)) (i : Nat) (tr : List Ev)
      (out : List String) (tr2 : List Ev) (out2 : List String),
      pgRunSteps env false steps i tr out = Sum.inr (tr2, out2) →
      out2 = out := by
  intro steps
  induction steps with
  | nil =>
    intro i tr out tr2 out2 h
    simp only [pgRunSteps, Sum.inr.injEq, Prod.mk.injEq] at h
    exact h.2.symm
  | cons s rest ih =>
    intro i tr out tr2 out2 h
    obtain ⟨logs, msg⟩ := s
    simp only [pgRunSteps, if_neg, List.append_nil, Bool.false_eq_true,
      ite_false] at h
    by_cases hat : env.attach i ≠ 0
    · rw [if_pos hat] at h
      cases h
    · rw [if_neg hat] at h
      exact ih _ _ _ _ _ h

/-- A failing django/pydev step always ends in the `"Error: ...!"` shape
with the rollback still registered and no result. -/
lemma runSteps_inl (env : Env) (v : Bool) :
    ∀ (steps : List (StepMode × String)) (i : Nat) (tr : List Ev)
      (out : List String) (e : RunEnd),
      runSteps env v steps i tr out = Sum.inl e →
      e.term = Term.sysExit 1 ∧ e.registered = true ∧ e.emitted = false ∧
      ∃ d, e.stderrLines = [errFmt d] := by
  intro steps
  induction steps with
  | nil => intro i tr out e h; simp [runSteps] at h
  | cons s rest ih =>
    intro i tr out e h
    obtain ⟨mode, descr⟩ := s
    simp only [runSteps] at h
    by_cases hrun : env.runningAt i = true
    · rw [if_pos hrun] at h
      by_cases hat : env.attach i ≠ 0
      · rw [if_pos hat] at h
        injection h with h
        subst h
        exact ⟨rfl, rfl, rfl, descr, rfl⟩
      · rw [if_neg hat] at h
        exact ih _ _ _ _ h
    · rw [if_neg hrun] at h
      injection h with h
      subst h
      exact ⟨rfl, rfl, rfl, _, rfl⟩

/-- With verbosity off, a failing django/pydev step adds nothing to stdout. -/
lemma runSteps_inl_out (env : Env) :
    ∀ (steps : List (StepMode × String)) (i : Nat) (tr : List Ev)
      (out : List String) (e : RunEnd),
      runSteps env false steps i tr out = Sum.inl e →
      e.stdoutLines = out := by
  intro steps
  induction steps with
  | nil => intro i tr out e h; simp [runSteps] at h
  | cons s rest ih =>
    intro i tr out e h
    obtain ⟨mode, descr⟩ := s
    simp only [runSteps, if_neg, List.append_nil, Bool.false_eq_true,
      ite_false] at h
    by_cases hrun : env.runningAt i = true
    · rw [if_pos hrun] at h
      by_cases hat : env.attach i ≠ 0
      · rw [if_pos hat] at h
        injection h with h
        subst h
        rfl
      · rw [if_neg hat] at h
        exact ih _ _ _ _ h
    · rw [if_neg hrun] at h
      injection h with h
      subst h
      rfl

/-- With verbosity off, a fully successful django/pydev step sequence adds
nothing to stdout. -/
lemma runSteps_inr_out (env : Env) :
    ∀ (steps : List (StepMode × String)) (i : Nat) (tr : List Ev)
      (out : List String) (tr2 : List Ev) (out2 : List String),
      runSteps env false steps i tr out = Sum.inr (tr2, out2) →
      out2 = out := by
  intro steps
  induction steps with
  | nil =>
    intro i tr out tr2 out2 h
    simp only [runSteps, Sum.inr.injEq, Prod.mk.injEq] at h
    exact h.2.symm
  | cons s rest ih =>
    intro i tr out tr2 out2 h
    obtain ⟨mode, descr⟩ := s
    simp only [runSteps, if_neg, List.append_nil, Bool.false_eq_true,
      ite_false] at h
    by_cases hrun : env.runningAt i = true
    · rw [if_pos hrun] at h
      by_cases hat : env.attach i ≠ 0
      · rw [if_pos hat] at h
        cases h
      · rw [if_neg hat] at h
        exact ih _ _ _ _ _ h
    · rw [if_neg hrun] at h
      cases h

/-- The end of the postgresql run never terminates by uncaught exception:
either a step failed via `error_exit` or the run finished normally. -/
lemma pgFinish_not_uncaught (env : Env) (v : Bool)
    (steps : List (List String × String)) (i : Nat) (tr : List Ev)
    (out : List String) :
    (pgFinish v (pgRunSteps env v steps i tr out)).term ≠ Term.uncaught := by
  rcases h : pgRunSteps env v steps i tr out with e | pr
  · have h1 := (pgRunSteps_inl env v steps i tr out e h).1
    simp [pgFinish, h1]
  · obtain ⟨tr2, out2⟩ := pr
    simp [pgFinish]

/-! ## Claim about the empty prefix -/

/-- Claim C10: on the empty prefix, django and pydev raise an uncaught
IndexError in the user display-name computation before any provider call
(empty trace, rollback never registered, nothing printed), whereas
postgresql's main never terminates by uncaught exception on the empty
prefix as long as the resolver itself does not throw and the address
lookup is non-empty. -/
theorem C10_empty_input :
    (∀ (v : Bool) (env : Env), djMain "" v env =
      { bodyTrace := [], registered := false, emitted := false,
        term := .uncaught, stderrLines := [], stdoutLines := [] }) ∧
    (∀ (v : Bool) (env : Env), pydevMain "" v env =
      { bodyTrace := [], registered := false, emitted := false,
        term := .uncaught, stderrLines := [], stdoutLines := [] }) ∧
    (∀ (v : Bool) (env : Env) (r : Option String),
      get_stable_codename env.netResponse = Except.ok r → env.ips ≠ [] →
      (pgMain "" v env).term ≠ Term.uncaught) := by
  refine ⟨fun v env => rfl, fun v env => rfl, fun v env r hr hips => ?_⟩
  unfold pgMain pgAfterCreate
  rw [hr]
  dsimp only
  cases hd : env.defined with
  | true => simp [pgFail]
  | false =>
    cases hc : env.createOk with
    | false => simp [pgFail]
    | true =>
      cases hs : env.startOk with
      | false => simp [pgFail]
      | true =>
        cases hi : env.ips with
        | nil => exact absurd hi hips
        | cons addr tail =>
          by_cases ha : addr = ""
          · simp [ha, pgFail]
          · simp only [ha, Bool.not_true, Bool.not_false, if_neg, if_pos,
              Bool.false_eq_true, ite_false, ite_true]
            simp [ha]
            exact pgFinish_not_uncaught env v pgSteps 0 _ _

/-- Claim C10, witness at concrete environments. -/
theorem C10_witness :
    (djMain "" false envAllOk =
      { bodyTrace := [], registered := false, emitted := false,
        term := .uncaught, stderrLines := [], stdoutLines := [] }) ∧
    (pydevMain "" false envAllOk =
      { bodyTrace := [], registered := false, emitted := false,
        term := .uncaught, stderrLines := [], stdoutLines := [] }) ∧
    (pgMain "" false envAllOk).term ≠ Term.uncaught :=
  ⟨C10_empty_input.1 false envAllOk, C10_empty_input.2.1 false envAllOk,
   C10_empty_input.2.2 false envAllOk none rfl (by decide)⟩

/-! ## Claim about rollback exclusivity -/

/-- Appending an adjacent `a`, `b` pair puts an occurrence of `a` strictly
before an occurrence of `b`. -/
lemma occursBefore_append_pair (a b : Ev) (l : List Ev) :
    occursBefore a b (l ++ [a, b]) = true := by
  induction l with
  | nil => simp [occursBefore, containsEv]
  | cons x xs ih => simp [occursBefore, ih]

/-- Exclusivity at the end of the postgresql run: either a step failed with
the rollback registered and no result, or the run succeeded with the result
emitted strictly before the rollback was cancelled. -/
lemma pgFinish_exclusive (env : Env) (v : Bool)
    (steps : List (List String × String)) (i : Nat) (tr : List Ev)
    (out : List String) :
    ((pgFinish v (pgRunSteps env v steps i tr out)).registered = true ∧
      (pgFinish v (pgRunSteps env v steps i tr out)).emitted = false) ∨
    ((pgFinish v (pgRunSteps env v steps i tr out)).registered = false ∧
      (pgFinish v (pgRunSteps env v steps i tr out)).emitted = true ∧
      occursBefore Ev.emitResult Ev.cancelRollback
        (pgFinish v (pgRunSteps env v steps i tr out)).bodyTrace = true) := by
  rcases h : pgRunSteps env v steps i tr out with e | ⟨tr2, out2⟩
  · obtain ⟨_, h2, h3, _⟩ := pgRunSteps_inl env v steps i tr out e h
    left
    simp [pgFinish, h2, h3]
  · right
    simp [pgFinish, occursBefore_append_pair]

/-- Exclusivity for the whole post-creation part of the postgresql run. -/
lemma pgAfterCreate_exclusive (v : Bool) (env : Env) (tr0 : List Ev)
    (out0 : List String) :
    ((pgAfterCreate v env tr0 out0).registered = true ∧
      (pgAfterCreate v env tr0 out0).emitted = false) ∨
    ((pgAfterCreate v env tr0 out0).registered = false ∧
      (pgAfterCreate v env tr0 out0).emitted = true ∧
      occursBefore Ev.emitResult Ev.cancelRollback
        (pgAfterCreate v env tr0 out0).bodyTrace = true) := by
  unfold pgAfterCreate
  cases hs : env.startOk with
  | false => left; simp [pgFail]
  | true =>
    cases hi : env.ips with
    | nil => left; simp
    | cons addr tail =>
      by_cases ha : addr = ""
      · left; simp [ha, pgFail]
      · simp [ha]
        exact pgFinish_exclusive env v pgSteps 0 _ _

/-- Claim C1, counterexample: in a run where every external interaction
succeeds, sandbox creation succeeds, the rollback does not fire, and the
ProvisioningResult is NOT emitted after the rollback is cancelled — it is
emitted strictly before the cancellation (postgresql.py prints the JSON on
line 157 and unregisters the handler on line 160).  Under the claim's
ordering, neither of its two alternatives occurs, refuting "exactly one". -/
theorem C1_counterexample :
    envAllOk.createOk = true ∧
    Ev.create ∈ (pgMain "test" false envAllOk).bodyTrace ∧
    rollbackFired (pgMain "test" false envAllOk) = false ∧
    occursBefore Ev.cancelRollback Ev.emitResult
      (pgMain "test" false envAllOk).bodyTrace = false ∧
    occursBefore Ev.emitResult Ev.cancelRollback
      (pgMain "test" false envAllOk).bodyTrace = true := by decide

/-- Claim C1, amended: for every run in which sandbox creation succeeded,
exactly one of the following holds at process exit — the rollback fires
(and the atexit phase appends stop then destroy), or the ProvisioningResult
is emitted and the rollback action is cancelled immediately afterwards
(emission strictly precedes cancellation) — never both, never neither,
whichever later step fails. -/
theorem C1_amended (pre : String) (v : Bool) (env : Env)
    (hcr : env.createOk = true)
    (hm : Ev.create ∈ (pgMain pre v env).bodyTrace) :
    ((rollbackFired (pgMain pre v env) = true ∧
      (pgMain pre v env).emitted = false) ∨
     (rollbackFired (pgMain pre v env) = false ∧
      (pgMain pre v env).emitted = true ∧
      occursBefore Ev.emitResult Ev.cancelRollback
        (pgMain pre v env).bodyTrace = true)) ∧
    (rollbackFired (pgMain pre v env) = true →
      exitTrace (pgMain pre v env) =
        (pgMain pre v env).bodyTrace ++ [Ev.stopC, Ev.destroyC]) := by
  have key : pgMain pre v env =
      pgAfterCreate v env [Ev.create] (pgLog v [] "Creating filesystem...") := by
    rcases hr : get_stable_codename env.netResponse with e | r
    · exfalso; simp [pgMain, hr] at hm
    · by_cases hd : env.defined = true
      · exfalso; simp [pgMain, hr, hd, pgFail] at hm
      · simp [pgMain, hr, hd, hcr]
  rw [key]
  refine ⟨pgAfterCreate_exclusive v env _ _, fun hreg => ?_⟩
  simp only [rollbackFired] at hreg
  simp [exitTrace, hreg]

/-- Claim C1, witness for the amended theorem in the all-success run. -/
theorem C1_witness :
    ((rollbackFired (pgMain "test" false envAllOk) = true ∧
      (pgMain "test" false envAllOk).emitted = false) ∨
     (rollbackFired (pgMain "test" false envAllOk) = false ∧
      (pgMain "test" false envAllOk).emitted = true ∧
      occursBefore Ev.emitResult Ev.cancelRollback
        (pgMain "test" false envAllOk).bodyTrace = true)) ∧
    (rollbackFired (pgMain "test" false envAllOk) = true →
      exitTrace (pgMain "test" false envAllOk) =
        (pgMain "test" false envAllOk).bodyTrace ++ [Ev.stopC, Ev.destroyC]) :=
  C1_amended "test" false envAllOk rfl (by decide)

/-! ## Claim about the empty address-poll result -/

/-- Claim C5: the code is wrong on an empty `get_ips(timeout=120)` result.
The orchestrator indexes `[0]` before the falsiness check, so an empty
result raises an uncaught IndexError: the process does exit with code 1 and
the registered rollback does fire (atexit handlers run after an uncaught
exception), but no single error line is printed via the error path — the
interpreter prints a traceback instead, contradicting the claimed
error-path failure. -/
theorem C5_codebug (pre : String) (v : Bool) (env : Env) (r : Option String)
    (c : Char) (cs : List Char) (hp : pre.data = c :: cs)
    (hr : get_stable_codename env.netResponse = Except.ok r)
    (hd : env.defined = false) (hc : env.createOk = true)
    (hclear : env.clearIdMapOk = true)
    (happ : ∀ i, env.appendIdMapOk i = true)
    (hsave : env.saveOk = true) (hstart : env.startOk = true)
    (hips : env.ips = []) :
    ((pgMain pre v env).term = Term.uncaught ∧
      rollbackFired (pgMain pre v env) = true ∧
      (pgMain pre v env).stderrLines = [] ∧
      exitCode (pgMain pre v env) = 1) ∧
    ((djMain pre v env).term = Term.uncaught ∧
      rollbackFired (djMain pre v env) = true ∧
      (djMain pre v env).stderrLines = [] ∧
      exitCode (djMain pre v env) = 1) := by
  constructor
  · simp [pgMain, pgAfterCreate, hr, hd, hc, hstart, hips,
      rollbackFired, exitCode]
  · simp [djMain, hp, hr, hd, hc, hclear, happ, hsave, hstart, hips,
      appendIdMaps, idMapEntries, rollbackFired, exitCode]

/-- Claim C5, witness: the concrete environment whose address poll returns
the empty result. -/
theorem C5_witness :
    ((pgMain "test" false envNoIps).term = Term.uncaught ∧
      rollbackFired (pgMain "test" false envNoIps) = true ∧
      (pgMain "test" false envNoIps).stderrLines = [] ∧
      exitCode (pgMain "test" false envNoIps) = 1) ∧
    ((djMain "test" false envNoIps).term = Term.uncaught ∧
      rollbackFired (djMain "test" false envNoIps) = true ∧
      (djMain "test" false envNoIps).stderrLines = [] ∧
      exitCode (djMain "test" false envNoIps) = 1) :=
  C5_codebug "test" false envNoIps none 't' "est".data rfl rfl rfl rfl rfl
    (fun _ => rfl) rfl rfl rfl

/-! ## Claim about the fatal error format -/

/-- The end of a postgresql run, when fatal, carries one stderr line and
(with verbosity off) an unchanged stdout. -/
lemma pgFinish_fatal (env : Env) (steps : List (List String × String))
    (i : Nat) (tr : List Ev) (out : List String) (hout : out = []) :
    (pgFinish false (pgRunSteps env false steps i tr out)).term = Term.sysExit 1 →
    (pgFinish false (pgRunSteps env false steps i tr out)).stderrLines.length = 1 ∧
    (pgFinish false (pgRunSteps env false steps i tr out)).stdoutLines = [] := by
  rcases h : pgRunSteps env false steps i tr out with e | ⟨tr2, out2⟩
  · intro _
    obtain ⟨_, _, _, h4⟩ := pgRunSteps_inl env false steps i tr out e h
    have h5 := pgRunSteps_inl_out env steps i tr out e h
    exact ⟨by simpa [pgFinish] using h4, by simp [pgFinish, h5, hout]⟩
  · intro hterm
    exfalso
    simp [pgFinish] at hterm

/-- Every fatal postgresql run (with verbosity off) prints exactly one
stderr line and nothing on stdout. -/
lemma pgMain_fatal (pre : String) (env : Env) :
    (pgMain pre false env).term = Term.sysExit 1 →
    (pgMain pre false env).stderrLines.length = 1 ∧
    (pgMain pre false env).stdoutLines = [] := by
  unfold pgMain pgAfterCreate
  cases hr : get_stable_codename env.netResponse with
  | error e => exact fun h => nomatch h
  | ok r =>
    cases hd : env.defined with
    | true => intro _; simp [pgFail]
    | false =>
      cases hc : env.createOk with
      | false => intro _; simp [pgFail, pgLog]
      | true =>
        cases hs : env.startOk with
        | false => intro _; simp [pgFail, pgLog]
        | true =>
          cases hi : env.ips with
          | nil => intro h; revert h; simp [pgLog]
          | cons addr tail =>
            by_cases ha : addr = ""
            · intro _; simp [ha, pgFail, pgLog]
            · simp [ha, pgLog]
              exact pgFinish_fatal env pgSteps 0 _ _ rfl

/-- The end of a django run, when fatal, carries one wrapped stderr line
and (with verbosity off) an unchanged stdout. -/
lemma djFinish_fatal (env : Env) (steps : List (StepMode × String))
    (i : Nat) (tr : List Ev) (out : List String) (hout : out = []) :
    (djFinish false (runSteps env false steps i tr out)).term = Term.sysExit 1 →
    (∃ d, (djFinish false (runSteps env false steps i tr out)).stderrLines =
      [errFmt d]) ∧
    (djFinish false (runSteps env false steps i tr out)).stdoutLines = [] := by
  rcases h : runSteps env false steps i tr out with e | ⟨tr2, out2⟩
  · intro _
    obtain ⟨_, _, _, d, hdd⟩ := runSteps_inl env false steps i tr out e h
    have ho := runSteps_inl_out env steps i tr out e h
    exact ⟨⟨d, by simp [djFinish, hdd]⟩, by simp [djFinish, ho, hout]⟩
  · intro hterm
    exfalso
    simp [djFinish] at hterm

/-- Every fatal django run (with verbosity off) prints exactly one
`"Error: <description>!"` line and nothing on stdout. -/
lemma djMain_fatal (pre : String) (env : Env) :
    (djMain pre false env).term = Term.sysExit 1 →
    (∃ d, (djMain pre false env).stderrLines = [errFmt d]) ∧
    (djMain pre false env).stdoutLines = [] := by
  unfold djMain
  dsimp only
  cases hp : pre.data with
  | nil => exact fun h => nomatch h
  | cons c cs =>
    cases hr : get_stable_codename env.netResponse with
    | error e => exact fun h => nomatch h
    | ok r =>
      cases hd : env.defined with
      | true =>
        intro _
        refine ⟨⟨"Container " ++ djContainerName pre r ++ " already exists!", ?_⟩, ?_⟩ <;>
          simp [fmtFail, vLog]
      | false =>
        cases hc : env.createOk with
        | false =>
          intro _
          refine ⟨⟨"Creating filesystem", ?_⟩, ?_⟩ <;> simp [fmtFail, vLog]
        | true =>
          cases hcl : env.clearIdMapOk with
          | false =>
            intro _
            refine ⟨⟨"Clearing UID and GID mappings", ?_⟩, ?_⟩ <;> simp [fmtFail, vLog]
          | true =>
            cases hap : (appendIdMaps env 0 idMapEntries).2 with
            | false =>
              intro _
              refine ⟨⟨"Appending new UID and GID mappings", ?_⟩, ?_⟩ <;>
                simp [fmtFail, vLog]
            | true =>
              cases hsv : env.saveOk with
              | false =>
                intro _
                refine ⟨⟨"Saving configuration", ?_⟩, ?_⟩ <;> simp [fmtFail, vLog]
              | true =>
                cases hs : env.startOk with
                | false =>
                  intro _
                  refine ⟨⟨"Starting container", ?_⟩, ?_⟩ <;> simp [fmtFail, vLog]
                | true =>
                  cases hi : env.ips with
                  | nil => intro h; revert h; simp [vLog]
                  | cons addr tail =>
                    by_cases ha : addr = ""
                    · intro _
                      refine ⟨⟨"Getting IP address", ?_⟩, ?_⟩ <;>
                        simp [ha, fmtFail, vLog]
                    · simp [ha, vLog]
                      exact djFinish_fatal env djSteps 0 _ _ rfl

/-- The host-side tail of a pydev run, when fatal, carries one wrapped
stderr line and (with verbosity off) an unchanged stdout. -/
lemma pydevTail_fatal (env : Env) (tr2 : List Ev) (out2 : List String)
    (hout : out2 = []) :
    (pydevTail false env tr2 out2).term = Term.sysExit 1 →
    (∃ d, (pydevTail false env tr2 out2).stderrLines = [errFmt d]) ∧
    (pydevTail false env tr2 out2).stdoutLines = [] := by
  unfold pydevTail
  cases hw : env.writeOk with
  | false =>
    intro _
    refine ⟨⟨"Writing startup script", ?_⟩, ?_⟩ <;> simp [fmtFail, vLog, hout]
  | true =>
    cases hm : env.chmodOk with
    | false =>
      intro _
      refine ⟨⟨"Making script executable", ?_⟩, ?_⟩ <;> simp [fmtFail, vLog, hout]
    | true =>
      cases hst : env.stopOk with
      | false =>
        intro _
        refine ⟨⟨"Stopping container", ?_⟩, ?_⟩ <;> simp [fmtFail, vLog, hout]
      | true => intro h; revert h; simp [vLog]

/-- The end of a pydev run, when fatal, carries one wrapped stderr line and
(with verbosity off) an unchanged stdout. -/
lemma pydevFinish_fatal (env : Env) (steps : List (StepMode × String))
    (i : Nat) (tr : List Ev) (out : List String) (hout : out = []) :
    (pydevFinish false env (runSteps env false steps i tr out)).term =
      Term.sysExit 1 →
    (∃ d, (pydevFinish false env (runSteps env false steps i tr out)).stderrLines =
      [errFmt d]) ∧
    (pydevFinish false env (runSteps env false steps i tr out)).stdoutLines = [] := by
  rcases h : runSteps env false steps i tr out with e | ⟨tr2, out2⟩
  · intro _
    obtain ⟨_, _, _, d, hdd⟩ := runSteps_inl env false steps i tr out e h
    have ho := runSteps_inl_out env steps i tr out e h
    exact ⟨⟨d, by simp [pydevFinish, hdd]⟩, by simp [pydevFinish, ho, hout]⟩
  · have h2 := runSteps_inr_out env steps i tr out tr2 out2 h
    simpa [pydevFinish] using pydevTail_fatal env tr2 out2 (h2.trans hout)

/-- Every fatal pydev run (with verbosity off) prints exactly one
`"Error: <description>!"` line and nothing on stdout. -/
lemma pydevMain_fatal (pre : String) (env : Env) :
    (pydevMain pre false env).term = Term.sysExit 1 →
    (∃ d, (pydevMain pre false env).stderrLines = [errFmt d]) ∧
    (pydevMain pre false env).stdoutLines = [] := by
  unfold pydevMain
  dsimp only
  cases hp : pre.data with
  | nil => exact fun h => nomatch h
  | cons c cs =>
    cases hr : get_stable_codename env.netResponse with
    | error e => exact fun h => nomatch h
    | ok r =>
      cases hd : env.defined with
      | true =>
        intro _
        refine ⟨⟨"Container " ++ pydevContainerName pre r ++ " already exists!", ?_⟩, ?_⟩ <;>
          simp [fmtFail, vLog]
      | false =>
        cases hc : env.createOk with
        | false =>
          intro _
          refine ⟨⟨"Creating filesystem", ?_⟩, ?_⟩ <;> simp [fmtFail, vLog]
        | true =>
          cases hmt : env.appendMountOk with
          | false =>
            intro _
            refine ⟨⟨"Appending mount entry to config", ?_⟩, ?_⟩ <;>
              simp [fmtFail, vLog]
          | true =>
            cases hcl : env.clearIdMapOk with
            | false =>
              intro _
              refine ⟨⟨"Clearing UID and GID mappings", ?_⟩, ?_⟩ <;>
                simp [fmtFail, vLog]
            | true =>
              cases hap : (appendIdMaps env 0 idMapEntries).2 with
              | false =>
                intro _
                refine ⟨⟨"Appending new UID and GID mappings", ?_⟩, ?_⟩ <;>
                  simp [fmtFail, vLog]
              | true =>
                cases hsv : env.saveOk with
                | false =>
                  intro _
                  refine ⟨⟨"Saving configuration", ?_⟩, ?_⟩ <;> simp [fmtFail, vLog]
                | true =>
                  cases hs : env.startOk with
                  | false =>
                    intro _
                    refine ⟨⟨"Starting container", ?_⟩, ?_⟩ <;> simp [fmtFail, vLog]
                  | true =>
                    cases hi : env.ips with
                    | nil => intro h; revert h; simp [vLog]
                    | cons addr tail =>
                      by_cases ha : addr = ""
                      · intro _
                        refine ⟨⟨"Getting IP address", ?_⟩, ?_⟩ <;>
                          simp [ha, fmtFail, vLog]
                      · simp [ha, vLog]
                        exact pydevFinish_fatal env pydevSteps 0 _ _ rfl

/-- Claim C3, counterexample: the postgresql recipe's `error_exit` prints
the raw message without the `"Error: "` wrapper, so its fatal line for an
already-existing container is not of the claimed exact form. -/
theorem C3_counterexample :
    (pgMain "test" false envDefined).term = Term.sysExit 1 ∧
    (pgMain "test" false envDefined).stderrLines =
      ["Container test_postgresql_jessie already exists!"] ∧
    ¬ hasErrorLineForm "Container test_postgresql_jessie already exists!" := by
  refine ⟨by decide, by decide, ?_⟩
  rintro ⟨d, hd⟩
  have h0 : ("Container test_postgresql_jessie already exists!").data.head? =
      some ('C') := by decide
  rw [hd] at h0
  have h1 : ("Error: ").data = 'E' :: ("rror: ").data := by decide
  rw [h1, List.cons_append, List.cons_append, List.head?_cons] at h0
  exact absurd h0 (by decide)

/-- Claim C3, amended: with verbosity off, every fatal condition exits with
code 1 after exactly one stderr line and with nothing printed to stdout; in
the django and pydev recipes that line has the exact form
`"Error: <description>!"`, while in the postgresql recipe it is the raw
message passed to `error_exit` without the `"Error: "` wrapper. -/
theorem C3_amended :
    (∀ pre env, (pgMain pre false env).term = Term.sysExit 1 →
      (pgMain pre false env).stderrLines.length = 1 ∧
      (pgMain pre false env).stdoutLines = []) ∧
    (∀ pre env, (djMain pre false env).term = Term.sysExit 1 →
      (∃ d, (djMain pre false env).stderrLines = [errFmt d]) ∧
      (djMain pre false env).stdoutLines = []) ∧
    (∀ pre env, (pydevMain pre false env).term = Term.sysExit 1 →
      (∃ d, (pydevMain pre false env).stderrLines = [errFmt d]) ∧
      (pydevMain pre false env).stdoutLines = []) :=
  ⟨fun pre env => pgMain_fatal pre env, fun pre env => djMain_fatal pre env,
   fun pre env => pydevMain_fatal pre env⟩

/-- Claim C3, witness for the amended theorem at the already-exists fatal
condition of all three recipes. -/
theorem C3_witness :
    ((pgMain "test" false envDefined).stderrLines.length = 1 ∧
      (pgMain "test" false envDefined).stdoutLines = []) ∧
    ((∃ d, (djMain "test" false envDefined).stderrLines = [errFmt d]) ∧
      (djMain "test" false envDefined).stdoutLines = []) ∧
    ((∃ d, (pydevMain "test" false envDefined).stderrLines = [errFmt d]) ∧
      (pydevMain "test" false envDefined).stdoutLines = []) :=
  ⟨C3_amended.1 "test" envDefined (by decide),
   C3_amended.2.1 "test" envDefined (by decide),
   C3_amended.2.2 "test" envDefined (by decide)⟩
